import Mathlib

/-!
Shallow embedding of `shanoir_downloader.py`, a CLI REST client for the
Shanoir medical-imaging repository.

Modelling conventions:
* The network is an oracle: each function that performs HTTP traffic takes
  the response(s) the network would return as explicit arguments (bundled in
  `Oracle`).  `Oracle.net i` is the response to the `i`-th HTTP attempt that
  `rest_request` issues for one logical call.
* Observable behaviour is an event trace (`List Event`): HTTP attempts,
  token-endpoint calls, prints, log lines and file writes.
* Python's process-wide mutable globals `access_token` / `refresh_token`
  become an explicit `TokenState` threaded through every function.
* `sys.exit` and raised exceptions become the `Outcome.exit` / `Outcome.exc`
  constructors; normal return is `Outcome.ok`.
* JSON response bodies are modelled structurally (a `TokenResponse` carries
  the fields the code reads; a missing JSON key is a `none` field whose read
  raises `KeyError`).  `requests`' header map is case-insensitive with
  canonical names, so headers are an association list keyed by the canonical
  header names the code uses.
-/

/-- Python globals `access_token` / `refresh_token` (lines 147-148). -/
structure TokenState where
  access_token : Option String
  refresh_token : Option String
deriving DecidableEq, Repr

/-- Structural view of a token-endpoint JSON response body together with its
HTTP status.  A `none` field models a missing JSON key. -/
structure TokenResponse where
  status_code : Nat
  access_token : Option String
  refresh_token : Option String
  error_description : Option String
deriving DecidableEq, Repr

/-- Structural view of a `requests` response to an API call: status, reason,
(canonicalised) headers and raw body bytes. -/
structure Response where
  status_code : Nat
  reason : String
  headers : List (String × String)
  content : List Nat
deriving DecidableEq, Repr

/-- The configuration record returned by `initialize` (line 144). -/
structure Config where
  domain : String
  username : String
  verify : Bool
  proxies : Option String
  output_folder : String
  timeout : Nat
deriving DecidableEq, Repr

/-- Observable events of one run. -/
inductive Event where
  | printMsg (msg : String)
  | printHelp
  | logWarning (msg : String)
  | logError (msg : String)
  | tokenPasswordGrant (url : String)
  | tokenRefreshGrant (url : String) (refreshTok : Option String)
  | httpRequest (rtype : String) (url : String) (headers : List (String × String))
      (params : List (String × String))
  | fileWrite (filename : String) (content : List Nat)
deriving DecidableEq, Repr

/-- Result of running a piece of the program: normal value, `sys.exit`, or a
raised exception (identified by a message). -/
inductive Outcome (α : Type) where
  | ok : α → Outcome α
  | exit : Nat → Outcome α
  | exc : String → Outcome α
deriving DecidableEq, Repr

/-- Network oracle for one logical `rest_request` call (and the token
endpoint).  `promptOk` models whether the interactive password prompt in
`ask_access_token` succeeds. -/
structure Oracle where
  promptOk : Bool
  passwordGrant : TokenResponse
  refreshGrant : TokenResponse
  net : Nat → Response

def Event.isHttpAttempt : Event → Bool
  | .httpRequest _ _ _ _ => true
  | _ => false

def Event.isPasswordGrant : Event → Bool
  | .tokenPasswordGrant _ => true
  | _ => false

def Event.isRefreshGrant : Event → Bool
  | .tokenRefreshGrant _ _ => true
  | _ => false

def Event.isFileWrite : Event → Bool
  | .fileWrite _ _ => true
  | _ => false

/-- Number of real HTTP attempts (API calls) in a trace. -/
def httpAttempts (evs : List Event) : Nat := evs.countP (fun e => e.isHttpAttempt)

/-- Number of password-grant token-endpoint calls in a trace. -/
def grantCount (evs : List Event) : Nat := evs.countP (fun e => e.isPasswordGrant)

/-- Number of refresh-grant token-endpoint calls in a trace. -/
def refreshCount (evs : List Event) : Nat := evs.countP (fun e => e.isRefreshGrant)

/-- Number of file writes in a trace. -/
def fileWriteCount (evs : List Event) : Nat := evs.countP (fun e => e.isFileWrite)

/-- The keycloak token endpoint URL (lines 156, 218). -/
def token_url (config : Config) : String :=
  "https://" ++ config.domain ++ "/auth/realms/shanoir-ng/protocol/openid-connect/token"

/-- `ask_access_token` (lines 151-179): password-grant POST to the token
endpoint.  Non-200 or bad credentials terminate the process; on success the
global refresh token is stored and the access token returned.  A failing
password prompt exits with code 0 (lines 153-155).  Reading a missing JSON
key raises `KeyError`; note `refresh_token` is assigned (line 178) before
`access_token` is read (line 179). -/
def ask_access_token (config : Config) (promptOk : Bool) (tokResp : TokenResponse)
    (st : TokenState) : Outcome String × TokenState × List Event :=
  if !promptOk then (.exit 0, st, [])
  else
    let ev := [Event.printMsg "get keycloak token...",
               Event.tokenPasswordGrant (token_url config)]
    if tokResp.status_code ≠ 200 then
      (.exit 1, st, ev ++ [Event.printMsg
        "Failed to connect, make sur you have a certified IP or are connected on a valid VPN."])
    else if tokResp.error_description = some "Invalid user credentials" then
      (.exit 1, st, ev ++ [Event.printMsg "bad username or password"])
    else
      match tokResp.refresh_token with
      | none => (.exc "KeyError: refresh_token", st, ev)
      | some rt =>
        match tokResp.access_token with
        | none => (.exc "KeyError: access_token", { st with refresh_token := some rt }, ev)
        | some tok => (.ok tok, { st with refresh_token := some rt }, ev)

/-- The status codes present in `http.client.responses` (line 11 imports
it), the reason-phrase table built from `http.HTTPStatus`; indexing it with
any other code raises `KeyError`. -/
def httpResponsesCodes : List Nat :=
  [100, 101, 102, 103,
   200, 201, 202, 203, 204, 205, 206, 207, 208, 226,
   300, 301, 302, 303, 304, 305, 307, 308,
   400, 401, 402, 403, 404, 405, 406, 407, 408, 409, 410, 411, 412, 413,
   414, 415, 416, 417, 418, 421, 422, 423, 424, 425, 426, 428, 429, 431, 451,
   500, 501, 502, 503, 504, 505, 506, 507, 508, 510, 511]

/-- `refresh_access_token` (lines 217-230): refresh-grant POST using the
stored refresh token.  On a non-200 status the error is logged and
execution continues — but the log line (228) interpolates
`responses[response.status_code]`, so a status code absent from
`http.client.responses` raises `KeyError` there, before anything is logged
or returned.  Otherwise the body's `access_token` field is returned
regardless of status.  The token state is not modified here (the caller
assigns the result; the log text's reason phrase is abbreviated away). -/
def refresh_access_token (config : Config) (tokResp : TokenResponse)
    (st : TokenState) : Outcome String × TokenState × List Event :=
  let ev := [Event.printMsg "refresh keycloak token...",
             Event.tokenRefreshGrant (token_url config) st.refresh_token]
  if tokResp.status_code ≠ 200 then
    if tokResp.status_code ∈ httpResponsesCodes then
      let ev2 := ev ++ [Event.logError
        ("response status : " ++ toString tokResp.status_code)]
      match tokResp.access_token with
      | none => (.exc "KeyError: access_token", st, ev2)
      | some tok => (.ok tok, st, ev2)
    else
      (.exc "KeyError: status reason", st, ev)
  else
    match tokResp.access_token with
    | none => (.exc "KeyError: access_token", st, ev)
    | some tok => (.ok tok, st, ev)

/-- `perform_rest_request` (lines 232-241): only `get` and `post` issue an
HTTP call; any other request type prints an error and returns `None`. -/
def perform_rest_request (rtype url : String) (headers params : List (String × String))
    (netResp : Response) : Option Response × List Event :=
  if rtype = "get" then (some netResp, [Event.httpRequest "get" url headers params])
  else if rtype = "post" then (some netResp, [Event.httpRequest "post" url headers params])
  else (none, [Event.printMsg "Error: unimplemented request type"])

/-- `response.raise_for_status()` from `requests`: raises `HTTPError` for
status codes in [400, 600). -/
def raiseForStatus (rfs : Bool) (resp : Response) : Outcome Response :=
  if rfs ∧ 400 ≤ resp.status_code ∧ resp.status_code < 600
  then .exc "HTTPError" else .ok resp

/-- Lines 247-248 of `rest_request`: if the global access token is `None`,
mint one via the password grant and store it. -/
def ensure_token (config : Config) (o : Oracle) (st : TokenState) :
    Outcome String × TokenState × List Event :=
  match st.access_token with
  | some tok => (.ok tok, st, [])
  | none =>
    match ask_access_token config o.promptOk o.passwordGrant st with
    | (.ok tok, st1, ev1) => (.ok tok, { st1 with access_token := some tok }, ev1)
    | (.exit n, st1, ev1) => (.exit n, st1, ev1)
    | (.exc m, st1, ev1) => (.exc m, st1, ev1)

/-- `rest_request` (lines 245-261): ensure a token, attach
`Authorization: Bearer <token>`, issue the request; on a 401 response
refresh the token, update the header and reissue once; finally
`raise_for_status` if requested.  A `None` response from an unimplemented
request type makes the `response.status_code` attribute access raise. -/
def rest_request (config : Config) (o : Oracle) (rtype url : String)
    (params : List (String × String)) (rfs : Bool)
    (st : TokenState) : Outcome Response × TokenState × List Event :=
  match ensure_token config o st with
  | (.exit n, st1, ev1) => (.exit n, st1, ev1)
  | (.exc m, st1, ev1) => (.exc m, st1, ev1)
  | (.ok tok, st1, ev1) =>
    let headers := [("Authorization", "Bearer " ++ tok),
                    ("content-type", "application/json")]
    match perform_rest_request rtype url headers params (o.net 0) with
    | (none, ev2) =>
      (.exc "AttributeError: NoneType object has no attribute status_code", st1, ev1 ++ ev2)
    | (some resp, ev2) =>
      if resp.status_code = 401 then
        match refresh_access_token config o.refreshGrant st1 with
        | (.exit n, st2, ev3) => (.exit n, st2, ev1 ++ ev2 ++ ev3)
        | (.exc m, st2, ev3) => (.exc m, st2, ev1 ++ ev2 ++ ev3)
        | (.ok tok2, st2, ev3) =>
          let st3 := { st2 with access_token := some tok2 }
          let headers2 := [("Authorization", "Bearer " ++ tok2),
                           ("content-type", "application/json")]
          match perform_rest_request rtype url headers2 params (o.net 1) with
          | (none, ev4) =>
            (.exc "AttributeError: NoneType object has no attribute status_code", st3,
             ev1 ++ ev2 ++ ev3 ++ ev4)
          | (some resp2, ev4) =>
            (raiseForStatus rfs resp2, st3, ev1 ++ ev2 ++ ev3 ++ ev4)
      else
        (raiseForStatus rfs resp, st1, ev1 ++ ev2)

/-- `rest_get` (lines 272-273). -/
def rest_get (config : Config) (o : Oracle) (url : String)
    (params : List (String × String)) (st : TokenState) :
    Outcome Response × TokenState × List Event :=
  rest_request config o "get" url params true st

/-- `rest_post` (lines 276-277). -/
def rest_post (config : Config) (o : Oracle) (url : String)
    (params : List (String × String)) (st : TokenState) :
    Outcome Response × TokenState × List Event :=
  rest_request config o "post" url params true st

/-- `str.split(sep)` for a one-character separator. -/
def splitOnChar (c : Char) : List Char → List (List Char)
  | [] => [[]]
  | x :: xs =>
    let r := splitOnChar c xs
    if x = c then [] :: r
    else
      match r with
      | [] => [[x]]
      | h :: t => (x :: h) :: t

/-- The capture list of `re.findall('filename=(.+)', s)` restricted to its
head: scan for the first position where `filename=` matches with a nonempty
capture (`.+` is greedy up to the end of the line); an occurrence followed
immediately by a newline or the end of the string does not match and the
scan continues one character further, as the regex engine does. -/
def firstFilenameCapture : List Char → Option (List Char)
  | [] => none
  | c :: cs =>
    if ("filename=".data).isPrefixOf (c :: cs) then
      let cap := ((c :: cs).drop 9).takeWhile (fun x => x ≠ '\n')
      if cap = [] then firstFilenameCapture cs else some cap
    else firstFilenameCapture cs

/-- Header lookup `name in response.headers` / `response.headers[name]`
(headers are stored canonicalised, see module docstring). -/
def headerLookup (headers : List (String × String)) (name : String) : Option String :=
  (headers.find? (fun p => p.1 = name)).map (fun p => p.2)

/-- Whether a POSIX path string is absolute (leading `/`). -/
def pathIsAbs (s : String) : Bool :=
  match s.data with
  | '/' :: _ => true
  | _ => false

/-- The components of a POSIX path as `pathlib` parses it: split on `/`,
dropping empty and `.` parts. -/
def pathParts (s : String) : List String :=
  ((splitOnChar '/' s.data).filter
    (fun p => !p.isEmpty && !(p == ['.']))).map (fun p => String.mk p)

/-- Render a POSIX path from its root flag and components, as
`str(PurePosixPath(...))` does. -/
def renderPath (isAbs : Bool) (parts : List String) : String :=
  if isAbs then "/" ++ String.intercalate "/" parts
  else if parts.isEmpty then "." else String.intercalate "/" parts

/-- `str(output_folder / filenames[0])` for POSIX `pathlib` paths
(line 185): joining with an absolute right operand discards the output
folder entirely, as `PurePath.__truediv__` does; otherwise the components
are appended.  (The rare `//` POSIX root is not distinguished from `/`.) -/
def pathJoin (folder s : String) : String :=
  if pathIsAbs s then renderPath true (pathParts s)
  else renderPath (pathIsAbs folder) (pathParts folder ++ pathParts s)

/-- `get_filename_from_response` (lines 181-188): extract the first
`filename=` capture of the `Content-Disposition` header and `pathlib`-join
it to the output folder (an absolute capture replaces the folder); raise if
the header is absent or no capture is found.  (The raising line itself
reads the nonexistent `response.error` attribute, so the exception actually
raised is an `AttributeError`, but an exception is raised either way.) -/
def get_filename_from_response (output_folder : String) (resp : Response) :
    Outcome String :=
  match headerLookup resp.headers "Content-Disposition" with
  | some cd =>
    match firstFilenameCapture cd.data with
    | some cap => .ok (pathJoin output_folder (String.mk cap))
    | none => .exc "Could not find file name in response header"
  | none => .exc "Could not find file name in response header"

/-- `download_file` (lines 193-214): derive the filename from the response
and write the body bytes to it.  Both variants (with and without `tqdm`)
write `response.content` byte-exact; the chunked `tqdm` loop concatenates to
the same bytes, so a single write event models both. -/
def download_file (output_folder : String) (resp : Response) :
    Outcome Unit × List Event :=
  match get_filename_from_response output_folder resp with
  | .ok filename => (.ok (), [Event.fileWrite filename resp.content])
  | .exit n => (.exit n, [])
  | .exc m => (.exc m, [])

/-- `download_dataset` (lines 294-301): GET the per-dataset download
endpoint and stream the response to a file. -/
def download_dataset (config : Config) (o : Oracle) (dataset_id file_format : String)
    (silent : Bool) (st : TokenState) : Outcome Unit × TokenState × List Event :=
  let ev0 := if silent then [] else [Event.printMsg ("Downloading dataset " ++ dataset_id)]
  let ff := if file_format = "nifti" then "nii" else "dcm"
  let url := "https://" ++ config.domain ++ "/shanoir-ng/datasets/datasets/download/"
               ++ dataset_id
  match rest_get config o url [("format", ff)] st with
  | (.ok resp, st1, ev1) =>
    match download_file config.output_folder resp with
    | (r2, ev2) => (r2, st1, ev0 ++ ev1 ++ ev2)
  | (.exit n, st1, ev1) => (.exit n, st1, ev0 ++ ev1)
  | (.exc m, st1, ev1) => (.exc m, st1, ev0 ++ ev1)

/-- `download_datasets` (lines 303-314): refuse batches of more than 50 ids
with only a warning; otherwise POST the comma-joined ids to the
mass-download endpoint and stream the response to a file. -/
def download_datasets (config : Config) (o : Oracle) (dataset_ids : List String)
    (file_format : String) (st : TokenState) : Outcome Unit × TokenState × List Event :=
  if dataset_ids.length > 50 then
    (.ok (), st, [Event.logWarning
      "Cannot download more than 50 datasets at once. Please use the --search_text option instead to download the datasets one by one."])
  else
    let ev0 := [Event.printMsg ("Downloading datasets "
                  ++ String.intercalate "," dataset_ids)]
    let ff := if file_format = "nifti" then "nii" else "dcm"
    let ids := String.intercalate "," dataset_ids
    let url := "https://" ++ config.domain
                 ++ "/shanoir-ng/datasets/datasets/massiveDownload"
    match rest_post config o url [("datasetIds", ids), ("format", ff)] st with
    | (.ok resp, st1, ev1) =>
      match download_file config.output_folder resp with
      | (r2, ev2) => (r2, st1, ev0 ++ ev1 ++ ev2)
    | (.exit n, st1, ev1) => (.exit n, st1, ev0 ++ ev1)
    | (.exc m, st1, ev1) => (.exc m, st1, ev0 ++ ev1)

/-- `download_dataset_by_study` (lines 316-322). -/
def download_dataset_by_study (config : Config) (o : Oracle) (study_id file_format : String)
    (st : TokenState) : Outcome Unit × TokenState × List Event :=
  let ev0 := [Event.printMsg ("Downloading datasets from study " ++ study_id)]
  let ff := if file_format = "nifti" then "nii" else "dcm"
  let url := "https://" ++ config.domain
               ++ "/shanoir-ng/datasets/datasets/massiveDownloadByStudy"
  match rest_get config o url [("studyId", study_id), ("format", ff)] st with
  | (.ok resp, st1, ev1) =>
    match download_file config.output_folder resp with
    | (r2, ev2) => (r2, st1, ev0 ++ ev1 ++ ev2)
  | (.exit n, st1, ev1) => (.exit n, st1, ev0 ++ ev1)
  | (.exc m, st1, ev1) => (.exc m, st1, ev0 ++ ev1)

/-- `find_dataset_ids_by_subject_id` (lines 324-328): GET the subject's
dataset ids; `jsonIds` is the oracle's parse of `response.json()`. -/
def find_dataset_ids_by_subject_id (config : Config) (o : Oracle) (jsonIds : List String)
    (subject_id : String) (st : TokenState) :
    Outcome (List String) × TokenState × List Event :=
  let ev0 := [Event.printMsg ("Getting datasets from subject " ++ subject_id)]
  let url := "https://" ++ config.domain ++ "/shanoir-ng/datasets/datasets/subject/"
               ++ subject_id
  match rest_get config o url [] st with
  | (.ok _, st1, ev1) => (.ok jsonIds, st1, ev0 ++ ev1)
  | (.exit n, st1, ev1) => (.exit n, st1, ev0 ++ ev1)
  | (.exc m, st1, ev1) => (.exc m, st1, ev0 ++ ev1)

/-- `find_dataset_ids_by_subject_id_study_id` (lines 330-334). -/
def find_dataset_ids_by_subject_id_study_id (config : Config) (o : Oracle)
    (jsonIds : List String) (subject_id study_id : String) (st : TokenState) :
    Outcome (List String) × TokenState × List Event :=
  let ev0 := [Event.printMsg ("Getting datasets from subject " ++ subject_id
                ++ " and study " ++ study_id)]
  let url := "https://" ++ config.domain ++ "/shanoir-ng/datasets/datasets/subject/"
               ++ subject_id ++ "/study/" ++ study_id
  match rest_get config o url [] st with
  | (.ok _, st1, ev1) => (.ok jsonIds, st1, ev0 ++ ev1)
  | (.exit n, st1, ev1) => (.exit n, st1, ev0 ++ ev1)
  | (.exc m, st1, ev1) => (.exc m, st1, ev0 ++ ev1)

/-- `download_dataset_by_subject` (lines 336-339). -/
def download_dataset_by_subject (config : Config) (oFind oDl : Oracle)
    (jsonIds : List String) (subject_id file_format : String) (st : TokenState) :
    Outcome Unit × TokenState × List Event :=
  match find_dataset_ids_by_subject_id config oFind jsonIds subject_id st with
  | (.ok ids, st1, ev1) =>
    match download_datasets config oDl ids file_format st1 with
    | (r, st2, ev2) => (r, st2, ev1 ++ ev2)
  | (.exit n, st1, ev1) => (.exit n, st1, ev1)
  | (.exc m, st1, ev1) => (.exc m, st1, ev1)

/-- `download_dataset_by_subject_id_study_id` (lines 341-344). -/
def download_dataset_by_subject_id_study_id (config : Config) (oFind oDl : Oracle)
    (jsonIds : List String) (subject_id study_id file_format : String) (st : TokenState) :
    Outcome Unit × TokenState × List Event :=
  match find_dataset_ids_by_subject_id_study_id config oFind jsonIds subject_id study_id st with
  | (.ok ids, st1, ev1) =>
    match download_datasets config oDl ids file_format st1 with
    | (r, st2, ev2) => (r, st2, ev1 ++ ev2)
  | (.exit n, st1, ev1) => (.exit n, st1, ev1)
  | (.exc m, st1, ev1) => (.exc m, st1, ev1)

/-- One entry of the solr search result page: the code only reads
`item['datasetId']`. -/
structure SearchItem where
  datasetId : String
deriving DecidableEq, Repr

/-- `solr_search` (lines 390-435): POST the query document to the solr
endpoint with page/size/sort as request parameters. -/
def solr_search (config : Config) (o : Oracle) (page size sort : String)
    (st : TokenState) : Outcome Response × TokenState × List Event :=
  let url := "https://" ++ config.domain ++ "/shanoir-ng/datasets/solr"
  rest_post config o url [("page", page), ("size", size), ("sort", sort)] st

/-- The `for item in json_content` loop of `download_search_results`
(lines 441-449): each item's download failure (HTTPError, RequestException
or any other exception) is caught and logged inside the loop; `SystemExit`
is not an `Exception` and propagates.  `oracles i` is the network
environment of the `i`-th item's `download_dataset` call. -/
def download_search_results_loop (config : Config) (fmt : String) (oracles : Nat → Oracle) :
    List SearchItem → Nat → TokenState → Outcome Unit × TokenState × List Event
  | [], _, st => (.ok (), st, [])
  | item :: rest, i, st =>
    match download_dataset config (oracles i) item.datasetId fmt false st with
    | (.ok _, st1, ev1) =>
      match download_search_results_loop config fmt oracles rest (i + 1) st1 with
      | (r, st2, ev2) => (r, st2, ev1 ++ ev2)
    | (.exc m, st1, ev1) =>
      match download_search_results_loop config fmt oracles rest (i + 1) st1 with
      | (r, st2, ev2) => (r, st2, ev1 ++ [Event.logError m] ++ ev2)
    | (.exit n, st1, ev1) => (.exit n, st1, ev1)

/-- `download_search_results` (lines 437-450): for a 200 response iterate
the `content` array (whose oracle parse is `jsonContent`) downloading each
entry's dataset; otherwise do nothing. -/
def download_search_results (config : Config) (fmt : String) (oracles : Nat → Oracle)
    (resp : Response) (jsonContent : List SearchItem) (st : TokenState) :
    Outcome Unit × TokenState × List Event :=
  if resp.status_code = 200 then
    download_search_results_loop config fmt oracles jsonContent 0 st
  else (.ok (), st, [])

/-- Parsed command-line arguments.  `argparse` defaults: `search_text` has
no default, hence `None`; the four id arguments default to the *string*
`''` (never `None`). -/
structure Args where
  username : String
  domain : String
  format : String
  output_folder : String
  page : String
  size : String
  sort : String
  expert_mode : Bool
  search_text : Option String
  dataset_id : String
  dataset_ids : String
  study_id : String
  subject_id : String
deriving DecidableEq, Repr

/-- Python truthiness of an optional string (`if args.search_text:`). -/
def pyTruthy : Option String → Bool
  | none => false
  | some s => s ≠ ""

/-- `getattr(args, name) is not None` for the four id arguments of
`__main__` (line 464): these are typed `str` with default `''` by argparse,
and a `str` is never `None`. -/
def pyStrIsNotNone (_ : String) : Bool := true

/-- Oracle bundle for `download_datasets_from_ids`: the ids-file state and
the network environment of each potential operation. -/
structure DfiOracle where
  fileExists : Bool
  fileLines : List String
  dlIds : Oracle
  dlSingle : Oracle
  byStudy : Oracle
  findSubject : Oracle
  subjectJson : List String
  findSubjectStudy : Oracle
  subjectStudyJson : List String
  dlAfter : Oracle

/-- `download_datasets_from_ids` (lines 346-387): mode selection over the
id arguments, then a single `try` block running the selected downloads;
`HTTPError` / `RequestException` / `Exception` are caught and logged (one
handler for the whole block), `SystemExit` propagates.  The three
study/subject conditionals of the source are pairwise exclusive, so the
chained form below is equivalent. -/
def download_datasets_from_ids (config : Config) (args : Args) (o : DfiOracle)
    (st : TokenState) : Outcome Unit × TokenState × List Event :=
  let dataset_ids_given := args.dataset_ids ≠ ""
  if dataset_ids_given ∧ ¬ o.fileExists then
    (.exit 1, st,
     [Event.printMsg ("Error: given file does not exist: " ++ args.dataset_ids)])
  else if ¬ dataset_ids_given ∧ args.dataset_id = "" ∧ args.study_id = ""
            ∧ args.subject_id = "" then
    (.exit 0, st,
     [Event.printMsg "Either datasetId, studyId or subjectId must be given to download a dataset",
      Event.printHelp])
  else
    let step1 : Outcome Unit × TokenState × List Event :=
      if dataset_ids_given then
        download_datasets config o.dlIds o.fileLines args.format st
      else (.ok (), st, [])
    match step1 with
    | (.exit n, st1, ev1) => (.exit n, st1, ev1)
    | (.exc m, st1, ev1) => (.ok (), st1, ev1 ++ [Event.logError m])
    | (.ok _, st1, ev1) =>
      let step2 : Outcome Unit × TokenState × List Event :=
        if args.dataset_id ≠ "" then
          download_dataset config o.dlSingle args.dataset_id args.format false st1
        else if args.study_id ≠ "" ∧ args.subject_id = "" then
          download_dataset_by_study config o.byStudy args.study_id args.format st1
        else if args.study_id = "" ∧ args.subject_id ≠ "" then
          download_dataset_by_subject config o.findSubject o.dlAfter o.subjectJson
            args.subject_id args.format st1
        else if args.study_id ≠ "" ∧ args.subject_id ≠ "" then
          download_dataset_by_subject_id_study_id config o.findSubjectStudy o.dlAfter
            o.subjectStudyJson args.subject_id args.study_id args.format st1
        else (.ok (), st1, [])
      match step2 with
      | (.exit n, st2, ev2) => (.exit n, st2, ev1 ++ ev2)
      | (.exc m, st2, ev2) => (.ok (), st2, ev1 ++ ev2 ++ [Event.logError m])
      | (.ok _, st2, ev2) => (.ok (), st2, ev1 ++ ev2)

/-- Oracle bundle for the `__main__` dispatch. -/
structure MainOracle where
  search : Oracle
  searchContent : List SearchItem
  itemOracles : Nat → Oracle
  dfi : DfiOracle

/-- The `__main__` dispatch (lines 461-467), after `initialize` (which
performs no HTTP traffic): search mode if `search_text` is truthy, else the
id branch whenever any of the four id arguments `is not None` (always, as
they are strings), else a usage message. -/
def shanoir_main (config : Config) (args : Args) (o : MainOracle) (st : TokenState) :
    Outcome Unit × TokenState × List Event :=
  if pyTruthy args.search_text then
    match solr_search config o.search args.page args.size args.sort st with
    | (.ok resp, st1, ev1) =>
      match download_search_results config args.format o.itemOracles resp
              o.searchContent st1 with
      | (r, st2, ev2) => (r, st2, ev1 ++ ev2)
    | (.exit n, st1, ev1) => (.exit n, st1, ev1)
    | (.exc m, st1, ev1) => (.exc m, st1, ev1)
  else if [args.dataset_id, args.dataset_ids, args.study_id,
           args.subject_id].any pyStrIsNotNone then
    download_datasets_from_ids config args o.dfi st
  else
    (.ok (), st,
     [Event.printMsg "You must either provide the search_text argument, or an argument in the list [dataset_id, dataset_ids, study_id, subject_id]."])

/-- Lookup in a Python-dict model where entries were prepended as assigned:
the first (most recent) binding wins, matching dict overwrite semantics. -/
def dictLookup (d : List (String × String)) (k : String) : Option String :=
  (d.find? (fun p => p.1 = k)).map (fun p => p.2)

/-- Python string whitespace for `str.strip()`. -/
def isPySpace (c : Char) : Bool :=
  c = ' ' ∨ c = '\t' ∨ c = '\n' ∨ c = '\r' ∨ c = Char.ofNat 11 ∨ c = Char.ofNat 12

/-- `str.strip()`: drop leading and trailing whitespace. -/
def pyStrip (l : List Char) : List Char :=
  ((l.dropWhile isPySpace).reverse.dropWhile isPySpace).reverse

/-- The `proxy.properties` parsing loop of `initialize` (lines 119-125):
keep lines starting with `proxy.`, split on `=` (a line without `=` raises
`IndexError`), key is the last `.`-component of the part before the first
`=`, value is the part between the first and second `=`, stripped. -/
def parseProxyLines : List String → List (String × String) →
    Outcome (List (String × String))
  | [], acc => .ok acc
  | line :: rest, acc =>
    if ("proxy.".data).isPrefixOf line.data then
      match splitOnChar '=' line.data with
      | [] => .exc "IndexError: list index out of range"
      | [_] => .exc "IndexError: list index out of range"
      | k :: v :: _ =>
        parseProxyLines rest
          ((String.mk ((splitOnChar '.' k).getLastD []), String.mk (pyStrip v)) :: acc)
    else parseProxyLines rest acc

/-- Lines 127-130 of `initialize`: when the proxy is enabled (key absent or
`true`), build `user:password` only if both are present and nonempty, then
unconditionally append `@host:port` — appending to `None` when credentials
are missing raises a `TypeError` (and a missing `host`/`port` key raises
`KeyError` first, since the right-hand side is evaluated before `+=`). -/
def proxy_url_from_config (d : List (String × String)) : Outcome (Option String) :=
  if dictLookup d "enabled" = none ∨ dictLookup d "enabled" = some "true" then
    let base : Option String :=
      match dictLookup d "user", dictLookup d "password" with
      | some u, some p => if u.length > 0 ∧ p.length > 0 then some (u ++ ":" ++ p) else none
      | _, _ => none
    match dictLookup d "host" with
    | none => .exc "KeyError: host"
    | some h =>
      match dictLookup d "port" with
      | none => .exc "KeyError: port"
      | some pt =>
        match base with
        | none => .exc "TypeError: unsupported operand types for +: NoneType and str"
        | some b => .ok (some (b ++ "@" ++ h ++ ":" ++ pt))
  else .ok none

/-- The proxy-resolution part of `initialize` (lines 113-133) for the
configuration-file path: parse `proxy.properties` when it exists and build
the proxy URL; console prints are not modelled here. -/
def initialize_proxy (fileExistsFlag : Bool) (fileLines : List String) :
    Outcome (Option String) :=
  if fileExistsFlag then
    match parseProxyLines fileLines [] with
    | .ok d => proxy_url_from_config d
    | .exit n => .exit n
    | .exc m => .exc m
  else .ok none

def Outcome.isExit {α : Type} : Outcome α → Bool
  | .exit _ => true
  | _ => false

def Outcome.isExc {α : Type} : Outcome α → Bool
  | .exc _ => true
  | _ => false

/-- One logical `rest_request` call: its network environment and arguments. -/
structure Call where
  o : Oracle
  rtype : String
  url : String
  params : List (String × String)
  rfs : Bool

/-- Run a sequence of logical `rest_request` calls threading the global
token state, as the sequential program does; `sys.exit` terminates the
process, a raised exception is assumed caught by an enclosing handler
(as in the per-item loops), after which the sequence continues. -/
def run_requests (config : Config) : List Call → TokenState → TokenState × List Event
  | [], st => (st, [])
  | c :: rest, st =>
    let r := rest_request config c.o c.rtype c.url c.params c.rfs st
    if r.1.isExit then (r.2.1, r.2.2)
    else
      match run_requests config rest r.2.1 with
      | (st2, ev2) => (st2, r.2.2 ++ ev2)

/-- A well-formed password-grant exchange: whenever the token endpoint
answers 200 without a credentials error, the body carries both tokens. -/
def grantParses (t : TokenResponse) : Prop :=
  t.status_code = 200 → t.error_description ≠ some "Invalid user credentials" →
    (t.refresh_token.isSome ∧ t.access_token.isSome)

/-! Concrete fixtures used by witness theorems. -/

def cfgW : Config :=
  { domain := "shanoir.irisa.fr", username := "user", verify := true,
    proxies := none, output_folder := "out", timeout := 240 }

def stNone : TokenState := { access_token := none, refresh_token := none }

def stTok : TokenState := { access_token := some "T", refresh_token := some "R0" }

def respOKW : Response :=
  { status_code := 200, reason := "OK",
    headers := [("Content-Disposition", "attachment; filename=scan_42.nii")],
    content := [1, 2, 3] }

def resp401W : Response :=
  { status_code := 401, reason := "Unauthorized", headers := [], content := [] }

def grantW : TokenResponse :=
  { status_code := 200, access_token := some "A", refresh_token := some "R",
    error_description := none }

def refreshW : TokenResponse :=
  { status_code := 200, access_token := some "B", refresh_token := none,
    error_description := none }

def orcW : Oracle :=
  { promptOk := true, passwordGrant := grantW, refreshGrant := refreshW,
    net := fun i => if i = 0 then resp401W else respOKW }

def orcOK : Oracle :=
  { promptOk := true, passwordGrant := grantW, refreshGrant := refreshW,
    net := fun _ => respOKW }

@[simp]
theorem httpAttempts_append (a b : List Event) :
    httpAttempts (a ++ b) = httpAttempts a + httpAttempts b := by
  simp [httpAttempts, List.countP_append]

@[simp]
theorem grantCount_append (a b : List Event) :
    grantCount (a ++ b) = grantCount a + grantCount b := by
  simp [grantCount, List.countP_append]

@[simp]
theorem refreshCount_append (a b : List Event) :
    refreshCount (a ++ b) = refreshCount a + refreshCount b := by
  simp [refreshCount, List.countP_append]

@[simp]
theorem fileWriteCount_append (a b : List Event) :
    fileWriteCount (a ++ b) = fileWriteCount a + fileWriteCount b := by
  simp [fileWriteCount, List.countP_append]

/-- C2: `download_datasets` with more than 50 ids logs a warning and
returns immediately: the result is `ok`, the token state is untouched, the
trace is exactly the warning — in particular it contains no HTTP attempt,
no token-endpoint call and no file write. -/
theorem C2_batch_over_50_rejected (config : Config) (o : Oracle) (ids : List String)
    (fmt : String) (st : TokenState) (h : ids.length > 50) :
    download_datasets config o ids fmt st =
      (.ok (), st, [Event.logWarning
        "Cannot download more than 50 datasets at once. Please use the --search_text option instead to download the datasets one by one."])
    ∧ httpAttempts (download_datasets config o ids fmt st).2.2 = 0
    ∧ grantCount (download_datasets config o ids fmt st).2.2 = 0
    ∧ refreshCount (download_datasets config o ids fmt st).2.2 = 0
    ∧ fileWriteCount (download_datasets config o ids fmt st).2.2 = 0 := by
  have hgt : ids.length > 50 := h
  refine ⟨?_, ?_, ?_, ?_, ?_⟩ <;>
    simp [download_datasets, hgt, httpAttempts, grantCount, refreshCount,
      fileWriteCount, Event.isHttpAttempt, Event.isPasswordGrant,
      Event.isRefreshGrant, Event.isFileWrite]

/-- Witness for C2 at a concrete batch of 51 ids. -/
theorem C2_witness :
    (List.replicate 51 "1").length > 50 ∧
    download_datasets cfgW orcW (List.replicate 51 "1") "nifti" stNone =
      (.ok (), stNone, [Event.logWarning
        "Cannot download more than 50 datasets at once. Please use the --search_text option instead to download the datasets one by one."]) :=
  ⟨by decide, (C2_batch_over_50_rejected cfgW orcW (List.replicate 51 "1") "nifti" stNone
      (by decide)).1⟩

def urlW : String := "https://shanoir.irisa.fr/shanoir-ng/datasets/datasets/download/100"

/-- C3: token round-trip.  With the password grant returning access token
`A` and refresh token `R`, the first request carries
`Authorization: Bearer A`; it answers 401, the refresh grant returns `B`,
the reissued request carries `Authorization: Bearer B`, the stored access
token ends up `B` (refresh token still `R`), and the caller receives the
reissued request's response. -/
theorem C3_token_round_trip :
    rest_request cfgW orcW "get" urlW [] true stNone =
      (.ok respOKW,
       { access_token := some "B", refresh_token := some "R" },
       [Event.printMsg "get keycloak token...",
        Event.tokenPasswordGrant (token_url cfgW),
        Event.httpRequest "get" urlW
          [("Authorization", "Bearer A"), ("content-type", "application/json")] [],
        Event.printMsg "refresh keycloak token...",
        Event.tokenRefreshGrant (token_url cfgW) (some "R"),
        Event.httpRequest "get" urlW
          [("Authorization", "Bearer B"), ("content-type", "application/json")] []]) := by
  rfl

/-- C5 (amended): `refresh_access_token` POSTs the refresh grant with the
stored refresh token and leaves the token state (in particular the stored
refresh token) unchanged.  For a non-200 status present in
`http.client.responses` it logs the error and still returns the body's
`access_token`, which `rest_request`'s 401 path stores as the new access
token (refresh token untouched).  For a non-200 status absent from that
table, the log line's `responses[...]` lookup raises `KeyError` first:
nothing is logged and no token is returned. -/
theorem C5_refresh_error_tolerant (config : Config) (tokResp : TokenResponse)
    (st : TokenState) :
    (refresh_access_token config tokResp st).2.1 = st
    ∧ Event.tokenRefreshGrant (token_url config) st.refresh_token ∈
        (refresh_access_token config tokResp st).2.2
    ∧ (tokResp.status_code ≠ 200 → tokResp.status_code ∈ httpResponsesCodes →
        Event.logError ("response status : " ++ toString tokResp.status_code) ∈
          (refresh_access_token config tokResp st).2.2)
    ∧ (∀ tok, tokResp.access_token = some tok →
        (tokResp.status_code = 200 ∨ tokResp.status_code ∈ httpResponsesCodes) →
        (refresh_access_token config tokResp st).1 = .ok tok)
    ∧ (tokResp.status_code ≠ 200 → tokResp.status_code ∉ httpResponsesCodes →
        refresh_access_token config tokResp st =
          (.exc "KeyError: status reason", st,
           [Event.printMsg "refresh keycloak token...",
            Event.tokenRefreshGrant (token_url config) st.refresh_token]))
    ∧ (∀ (o : Oracle) (rtype url : String) (params : List (String × String))
         (rfs : Bool) (st2 : TokenState) (t b : String),
        st2.access_token = some t → (rtype = "get" ∨ rtype = "post") →
        (o.net 0).status_code = 401 → o.refreshGrant.access_token = some b →
        (o.refreshGrant.status_code = 200 ∨
          o.refreshGrant.status_code ∈ httpResponsesCodes) →
        (rest_request config o rtype url params rfs st2).2.1.access_token = some b ∧
        (rest_request config o rtype url params rfs st2).2.1.refresh_token =
          st2.refresh_token) := by
  refine ⟨?_, ?_, ?_, ?_, ?_, ?_⟩
  · by_cases h200 : tokResp.status_code = 200 <;>
      by_cases hmem : tokResp.status_code ∈ httpResponsesCodes <;>
        rcases h : tokResp.access_token with _ | tok <;>
          simp [refresh_access_token, h, h200, hmem]
  · by_cases h200 : tokResp.status_code = 200 <;>
      by_cases hmem : tokResp.status_code ∈ httpResponsesCodes <;>
        rcases h : tokResp.access_token with _ | tok <;>
          simp [refresh_access_token, h, h200, hmem]
  · intro hne hmem
    rcases h : tokResp.access_token with _ | tok <;>
      simp [refresh_access_token, h, hne, hmem]
  · intro tok h hstat
    by_cases h200 : tokResp.status_code = 200
    · simp [refresh_access_token, h, h200]
    · have hmem := hstat.resolve_left h200
      simp [refresh_access_token, h, h200, hmem]
  · intro hne hmem
    simp [refresh_access_token, hne, hmem]
  · intro o rtype url params rfs st2 t b hst2 hrt h401 hb hstat
    by_cases h200 : o.refreshGrant.status_code = 200
    · rcases hrt with h | h <;> subst h <;>
        simp [rest_request, ensure_token, hst2, perform_rest_request, h401,
          refresh_access_token, hb, h200]
    · have hmem := hstat.resolve_left h200
      rcases hrt with h | h <;> subst h <;>
        simp [rest_request, ensure_token, hst2, perform_rest_request, h401,
          refresh_access_token, hb, h200, hmem]

def refresh500 : TokenResponse :=
  { status_code := 500, access_token := some "B2", refresh_token := none,
    error_description := none }

def refresh520 : TokenResponse :=
  { status_code := 520, access_token := some "B2", refresh_token := none,
    error_description := none }

/-- Counterexample to C5 as stated: a refresh response with status 520
(absent from `http.client.responses`) carries an `access_token`, yet the
function aborts with `KeyError` before logging anything and never returns
the token. -/
theorem C5_counterexample :
    refresh520.status_code ≠ 200 ∧
    refresh520.access_token = some "B2" ∧
    refresh_access_token cfgW refresh520 stTok =
      (.exc "KeyError: status reason", stTok,
       [Event.printMsg "refresh keycloak token...",
        Event.tokenRefreshGrant (token_url cfgW) (some "R0")]) := by
  decide

/-- Witness for C5: a 500 refresh response (500 is a standard code) logs
and still yields its token; in the C3 oracle the refreshed token `B`
overwrites the stored access token; a 520 refresh response aborts with
`KeyError` instead. -/
theorem C5_witness :
    (refresh_access_token cfgW refresh500 stTok).1 = .ok "B2" ∧
    Event.logError ("response status : " ++ toString refresh500.status_code) ∈
      (refresh_access_token cfgW refresh500 stTok).2.2 ∧
    (rest_request cfgW orcW "get" urlW [] true stTok).2.1.access_token = some "B" ∧
    (rest_request cfgW orcW "get" urlW [] true stTok).2.1.refresh_token =
      stTok.refresh_token ∧
    (refresh_access_token cfgW refresh520 stTok).1 = .exc "KeyError: status reason" := by
  refine ⟨(C5_refresh_error_tolerant cfgW refresh500 stTok).2.2.2.1 "B2" rfl
      (Or.inr (by decide)),
    (C5_refresh_error_tolerant cfgW refresh500 stTok).2.2.1 (by decide) (by decide),
    ?_, ?_, ?_⟩
  · exact ((C5_refresh_error_tolerant cfgW refresh500 stTok).2.2.2.2.2 orcW "get" urlW []
      true stTok "T" "B" rfl (Or.inl rfl) rfl rfl (Or.inl rfl)).1
  · exact ((C5_refresh_error_tolerant cfgW refresh500 stTok).2.2.2.2.2 orcW "get" urlW []
      true stTok "T" "B" rfl (Or.inl rfl) rfl rfl (Or.inl rfl)).2
  · have h := (C5_refresh_error_tolerant cfgW refresh520 stTok).2.2.2.2.1
      (by decide) (by decide)
    rw [h]

theorem ensure_token_counts (config : Config) (o : Oracle) (st : TokenState) :
    httpAttempts (ensure_token config o st).2.2 = 0 ∧
    refreshCount (ensure_token config o st).2.2 = 0 ∧
    grantCount (ensure_token config o st).2.2 ≤ 1 := by
  rcases h : st.access_token with _ | tok
  · simp only [ensure_token, ask_access_token, h]
    split_ifs <;>
      rcases hrt : o.passwordGrant.refresh_token with _ | rt <;>
      rcases hat : o.passwordGrant.access_token with _ | atk <;>
        simp [hrt, hat, httpAttempts, refreshCount, grantCount, Event.isHttpAttempt,
          Event.isRefreshGrant, Event.isPasswordGrant, List.countP_cons, List.countP_nil]
  · simp [ensure_token, h, httpAttempts, refreshCount, grantCount]

theorem refresh_token_counts (config : Config) (tokResp : TokenResponse) (st : TokenState) :
    httpAttempts (refresh_access_token config tokResp st).2.2 = 0 ∧
    grantCount (refresh_access_token config tokResp st).2.2 = 0 ∧
    refreshCount (refresh_access_token config tokResp st).2.2 = 1 := by
  rcases hat : tokResp.access_token with _ | atk <;>
    by_cases h200 : tokResp.status_code = 200 <;>
      by_cases hmem : tokResp.status_code ∈ httpResponsesCodes <;>
        simp [refresh_access_token, hat, h200, hmem, httpAttempts, refreshCount,
          grantCount, Event.isHttpAttempt, Event.isRefreshGrant,
          Event.isPasswordGrant, List.countP_cons, List.countP_nil]

theorem perform_counts (rtype url : String) (headers params : List (String × String))
    (netResp : Response) :
    httpAttempts (perform_rest_request rtype url headers params netResp).2 =
      (if rtype = "get" ∨ rtype = "post" then 1 else 0) ∧
    grantCount (perform_rest_request rtype url headers params netResp).2 = 0 ∧
    refreshCount (perform_rest_request rtype url headers params netResp).2 = 0 := by
  by_cases hg : rtype = "get" <;> by_cases hp : rtype = "post" <;>
    simp [perform_rest_request, hg, hp, httpAttempts, refreshCount, grantCount,
      Event.isHttpAttempt, Event.isRefreshGrant, Event.isPasswordGrant,
      List.countP_cons, List.countP_nil]

@[simp]
theorem httpAttempts_nil : httpAttempts [] = 0 := rfl

@[simp]
theorem httpAttempts_cons (e : Event) (l : List Event) :
    httpAttempts (e :: l) = httpAttempts l + (if e.isHttpAttempt then 1 else 0) := by
  simp [httpAttempts, List.countP_cons]

@[simp]
theorem grantCount_nil : grantCount [] = 0 := rfl

@[simp]
theorem grantCount_cons (e : Event) (l : List Event) :
    grantCount (e :: l) = grantCount l + (if e.isPasswordGrant then 1 else 0) := by
  simp [grantCount, List.countP_cons]

@[simp]
theorem refreshCount_nil : refreshCount [] = 0 := rfl

@[simp]
theorem refreshCount_cons (e : Event) (l : List Event) :
    refreshCount (e :: l) = refreshCount l + (if e.isRefreshGrant then 1 else 0) := by
  simp [refreshCount, List.countP_cons]

@[simp]
theorem fileWriteCount_nil : fileWriteCount [] = 0 := rfl

@[simp]
theorem fileWriteCount_cons (e : Event) (l : List Event) :
    fileWriteCount (e :: l) = fileWriteCount l + (if e.isFileWrite then 1 else 0) := by
  simp [fileWriteCount, List.countP_cons]

/-- C7: only `get` and `post` result in an HTTP request.  Any other request
type makes `perform_rest_request` print an error and return `None` without
issuing an HTTP call, so a whole `rest_request` issues no HTTP attempt and
(once a token is held) fails with the `None`-response attribute error after
reporting the unimplemented type. -/
theorem C7_unsupported_methods_rejected (rtype url : String)
    (headers params : List (String × String)) (netResp : Response) (config : Config)
    (o : Oracle) (rfs : Bool) (st : TokenState) :
    (rtype ≠ "get" → rtype ≠ "post" →
      perform_rest_request rtype url headers params netResp =
        (none, [Event.printMsg "Error: unimplemented request type"])
      ∧ httpAttempts (rest_request config o rtype url params rfs st).2.2 = 0
      ∧ (st.access_token.isSome →
          (rest_request config o rtype url params rfs st).1 =
            .exc "AttributeError: NoneType object has no attribute status_code"
          ∧ Event.printMsg "Error: unimplemented request type" ∈
              (rest_request config o rtype url params rfs st).2.2))
    ∧ ((rtype = "get" ∨ rtype = "post") →
        httpAttempts (perform_rest_request rtype url headers params netResp).2 = 1) := by
  constructor
  · intro hg hp
    refine ⟨by simp [perform_rest_request, hg, hp], ?_, ?_⟩
    · rcases hE : ensure_token config o st with ⟨r1, st1, ev1⟩
      have hc := ensure_token_counts config o st
      rw [hE] at hc
      cases r1 <;>
        simp [rest_request, hE, perform_rest_request, hg, hp, hc.1,
          Event.isHttpAttempt]
    · intro hsome
      rcases h : st.access_token with _ | tok
      · simp [h] at hsome
      · simp [rest_request, ensure_token, h, perform_rest_request, hg, hp]
  · intro hgp
    exact (perform_counts rtype url headers params netResp).1.trans (by simp [hgp])

/-- Witness for C7 at the request type `put`. -/
theorem C7_witness :
    perform_rest_request "put" urlW [] [] respOKW =
      (none, [Event.printMsg "Error: unimplemented request type"]) ∧
    httpAttempts (rest_request cfgW orcW "put" urlW [] true stTok).2.2 = 0 ∧
    (rest_request cfgW orcW "put" urlW [] true stTok).1 =
      .exc "AttributeError: NoneType object has no attribute status_code" ∧
    httpAttempts (perform_rest_request "get" urlW [] [] respOKW).2 = 1 := by
  have h := C7_unsupported_methods_rejected "put" urlW [] [] respOKW cfgW orcW true stTok
  have h1 := h.1 (by decide) (by decide)
  exact ⟨h1.1, h1.2.1, (h1.2.2 (by decide)).1,
    (C7_unsupported_methods_rejected "get" urlW [] [] respOKW cfgW orcW true stTok).2
      (Or.inl rfl)⟩

/-- C9: `get_filename_from_response` raises exactly when the
`Content-Disposition` header is absent or contains no parsable
`filename=` capture; otherwise it returns the `pathlib` join of the output
folder with the first capture (an absolute capture replaces the folder, as
`Path.__truediv__` does), and `download_file` writes the response body to
that file byte-exact. -/
theorem C9_filename_derivation (folder : String) (resp : Response) :
    ((∃ m, get_filename_from_response folder resp = .exc m) ↔
      (headerLookup resp.headers "Content-Disposition" = none ∨
       ∃ cd, headerLookup resp.headers "Content-Disposition" = some cd ∧
         firstFilenameCapture cd.data = none))
    ∧ (∀ cd cap, headerLookup resp.headers "Content-Disposition" = some cd →
        firstFilenameCapture cd.data = some cap →
        get_filename_from_response folder resp = .ok (pathJoin folder (String.mk cap))
        ∧ download_file folder resp =
            (.ok (), [Event.fileWrite (pathJoin folder (String.mk cap))
              resp.content])) := by
  constructor
  · rcases hcd : headerLookup resp.headers "Content-Disposition" with _ | cd
    · simp [get_filename_from_response, hcd]
    · rcases hfc : firstFilenameCapture cd.data with _ | cap <;>
        simp [get_filename_from_response, hcd, hfc]
  · intro cd cap hcd hcap
    refine ⟨by simp [get_filename_from_response, hcd, hcap], ?_⟩
    simp [download_file, get_filename_from_response, hcd, hcap]

def respEvil : Response :=
  { status_code := 200, reason := "OK",
    headers := [("Content-Disposition", "attachment; filename=/tmp/evil")],
    content := [9] }

/-- Witness for C9: a relative capture lands inside the output folder; an
absolute capture replaces it, exactly as the program's `pathlib` join
does. -/
theorem C9_witness :
    get_filename_from_response "out" respOKW = .ok "out/scan_42.nii" ∧
    download_file "out" respOKW =
      (.ok (), [Event.fileWrite "out/scan_42.nii" respOKW.content]) ∧
    get_filename_from_response "out" respEvil = .ok "/tmp/evil" ∧
    download_file "out" respEvil =
      (.ok (), [Event.fileWrite "/tmp/evil" respEvil.content]) := by
  have h1 := (C9_filename_derivation "out" respOKW).2 "attachment; filename=scan_42.nii"
    ("scan_42.nii".data) (by decide) (by decide)
  have h2 := (C9_filename_derivation "out" respEvil).2 "attachment; filename=/tmp/evil"
    ("/tmp/evil".data) (by decide) (by decide)
  exact ⟨h1.1.trans (by decide), h1.2.trans (by decide),
    h2.1.trans (by decide), h2.2.trans (by decide)⟩

/-- C10 (implicit): if `proxy.properties` exists, its parsed configuration
has `enabled` absent or `true`, and its `user` or `password` entry is
missing or empty, then the proxy-resolution part of `initialize` raises an
exception (appending `@host:port` to a `None` proxy URL, or a `KeyError` on
a missing `host`/`port`); it never returns a configuration with an enabled
but credential-less proxy. -/
theorem C10_enabled_credless_proxy_raises (lines : List String)
    (d : List (String × String))
    (hp : parseProxyLines lines [] = .ok d)
    (hen : dictLookup d "enabled" = none ∨ dictLookup d "enabled" = some "true")
    (hcred : dictLookup d "user" = none ∨ dictLookup d "user" = some "" ∨
      dictLookup d "password" = none ∨ dictLookup d "password" = some "") :
    ∃ m, initialize_proxy true lines = .exc m := by
  have hgoal : ∃ m, proxy_url_from_config d = .exc m := by
    unfold proxy_url_from_config
    rw [if_pos hen]
    rcases hH : dictLookup d "host" with _ | host
    · simp
    · rcases hPt : dictLookup d "port" with _ | port
      · simp
      · rcases hU : dictLookup d "user" with _ | u
        · simp
        · rcases hP : dictLookup d "password" with _ | p
          · simp
          · have hup : u = "" ∨ p = "" := by
              rcases hcred with h | h | h | h
              · rw [hU] at h; exact absurd h (by simp)
              · exact Or.inl (Option.some.inj (hU.symm.trans h))
              · rw [hP] at h; exact absurd h (by simp)
              · exact Or.inr (Option.some.inj (hP.symm.trans h))
            rcases hup with h | h <;> subst h <;> simp
  rcases hgoal with ⟨m, hm⟩
  exact ⟨m, by simp [initialize_proxy, hp, hm]⟩

/-- Witness for C10: an enabled proxy configuration with host and port but
no credentials makes `initialize` raise. -/
theorem C10_witness :
    ∃ m, initialize_proxy true
      ["proxy.enabled=true", "proxy.host=h", "proxy.port=8080"] = .exc m :=
  C10_enabled_credless_proxy_raises
    ["proxy.enabled=true", "proxy.host=h", "proxy.port=8080"]
    [("port", "8080"), ("host", "h"), ("enabled", "true")]
    (by decide) (by decide) (by decide)

/-- C8: invoked with no `search_text` and none of the four id arguments
(argparse gives `None` for `search_text` and the empty string for the ids),
the main dispatch lands in `download_datasets_from_ids`, which prints the
usage guidance plus the argparse help and exits — with zero HTTP attempts,
zero token-endpoint calls and zero file writes. -/
theorem C8_no_mode_prints_usage (config : Config) (args : Args) (o : MainOracle)
    (st : TokenState) (hs : args.search_text = none) (h1 : args.dataset_id = "")
    (h2 : args.dataset_ids = "") (h3 : args.study_id = "") (h4 : args.subject_id = "") :
    shanoir_main config args o st =
      (.exit 0, st,
       [Event.printMsg "Either datasetId, studyId or subjectId must be given to download a dataset",
        Event.printHelp])
    ∧ httpAttempts (shanoir_main config args o st).2.2 = 0
    ∧ grantCount (shanoir_main config args o st).2.2 = 0
    ∧ refreshCount (shanoir_main config args o st).2.2 = 0
    ∧ fileWriteCount (shanoir_main config args o st).2.2 = 0 := by
  refine ⟨?_, ?_, ?_, ?_, ?_⟩ <;>
    simp [shanoir_main, pyTruthy, hs, h1, h2, h3, h4, pyStrIsNotNone,
      download_datasets_from_ids, Event.isHttpAttempt, Event.isPasswordGrant,
      Event.isRefreshGrant, Event.isFileWrite]

def argsW : Args :=
  { username := "user", domain := "shanoir.irisa.fr", format := "nifti",
    output_folder := "out", page := "0", size := "50", sort := "id,DESC",
    expert_mode := false, search_text := none, dataset_id := "",
    dataset_ids := "", study_id := "", subject_id := "" }

def mainOrcW : MainOracle :=
  { search := orcW, searchContent := [], itemOracles := fun _ => orcW,
    dfi := { fileExists := true, fileLines := [], dlIds := orcW, dlSingle := orcW,
             byStudy := orcW, findSubject := orcW, subjectJson := [],
             findSubjectStudy := orcW, subjectStudyJson := [], dlAfter := orcW } }

/-- Witness for C8 at the default argument record. -/
theorem C8_witness :
    shanoir_main cfgW argsW mainOrcW stNone =
      (.exit 0, stNone,
       [Event.printMsg "Either datasetId, studyId or subjectId must be given to download a dataset",
        Event.printHelp]) ∧
    httpAttempts (shanoir_main cfgW argsW mainOrcW stNone).2.2 = 0 :=
  ⟨(C8_no_mode_prints_usage cfgW argsW mainOrcW stNone rfl rfl rfl rfl rfl).1,
   (C8_no_mode_prints_usage cfgW argsW mainOrcW stNone rfl rfl rfl rfl rfl).2.1⟩

theorem refresh_access_token_state (config : Config) (tokResp : TokenResponse)
    (st : TokenState) : (refresh_access_token config tokResp st).2.1 = st := by
  rcases h : tokResp.access_token with _ | tok <;>
    by_cases h200 : tokResp.status_code = 200 <;>
      by_cases hmem : tokResp.status_code ∈ httpResponsesCodes <;>
        simp [refresh_access_token, h, h200, hmem]

theorem refresh_access_token_no_exit (config : Config) (tokResp : TokenResponse)
    (st : TokenState) : (refresh_access_token config tokResp st).1.isExit = false := by
  rcases h : tokResp.access_token with _ | tok <;>
    by_cases h200 : tokResp.status_code = 200 <;>
      by_cases hmem : tokResp.status_code ∈ httpResponsesCodes <;>
        simp [refresh_access_token, h, h200, hmem, Outcome.isExit]

theorem raiseForStatus_no_exit (rfs : Bool) (resp : Response) :
    (raiseForStatus rfs resp).isExit = false := by
  unfold raiseForStatus; split <;> rfl

theorem get_filename_no_exit (folder : String) (resp : Response) :
    (get_filename_from_response folder resp).isExit = false := by
  unfold get_filename_from_response
  split
  · split <;> rfl
  · rfl

theorem download_file_no_exit (folder : String) (resp : Response) :
    (download_file folder resp).1.isExit = false := by
  have h := get_filename_no_exit folder resp
  unfold download_file
  rcases hf : get_filename_from_response folder resp with f | n | m
  · rfl
  · rw [hf] at h; simp [Outcome.isExit] at h
  · rfl

/-- Once an access token is held, `rest_request` never terminates the
process and leaves an access token in place (the password grant is not
consulted; a refresh only replaces the token with another one). -/
theorem rest_request_someTok_no_exit (config : Config) (o : Oracle) (rtype url : String)
    (params : List (String × String)) (rfs : Bool) (st : TokenState)
    (h : st.access_token.isSome = true) :
    (rest_request config o rtype url params rfs st).2.1.access_token.isSome = true ∧
    (rest_request config o rtype url params rfs st).1.isExit = false := by
  rcases hA : st.access_token with _ | tok
  · rw [hA] at h; simp at h
  · simp only [rest_request, ensure_token, hA]
    split
    · exact ⟨h, rfl⟩
    · split
      · split
        · next n st2 ev3 heq =>
            have hne := refresh_access_token_no_exit config o.refreshGrant st
            rw [heq] at hne
            simp [Outcome.isExit] at hne
        · next m st2 ev3 heq =>
            have hst := refresh_access_token_state config o.refreshGrant st
            rw [heq] at hst
            have hst2 : st2 = st := hst
            rw [hst2]
            exact ⟨h, rfl⟩
        · next tok2 st2 ev3 heq =>
            split
            · exact ⟨rfl, rfl⟩
            · exact ⟨rfl, raiseForStatus_no_exit rfs _⟩
      · exact ⟨h, raiseForStatus_no_exit rfs _⟩

theorem download_dataset_pres (config : Config) (o : Oracle)
    (dataset_id file_format : String) (silent : Bool) (st : TokenState)
    (h : st.access_token.isSome = true) :
    (download_dataset config o dataset_id file_format silent st).2.1.access_token.isSome
      = true ∧
    (download_dataset config o dataset_id file_format silent st).1.isExit = false := by
  have hp := rest_request_someTok_no_exit config o "get"
    ("https://" ++ config.domain ++ "/shanoir-ng/datasets/datasets/download/" ++ dataset_id)
    [("format", if file_format = "nifti" then "nii" else "dcm")] true st h
  simp only [download_dataset, rest_get]
  split
  · next resp st1 ev1 heq =>
      rw [heq] at hp
      exact ⟨hp.1, download_file_no_exit config.output_folder resp⟩
  · next n st1 ev1 heq =>
      rw [heq] at hp
      simp [Outcome.isExit] at hp
  · next m st1 ev1 heq =>
      rw [heq] at hp
      exact ⟨hp.1, rfl⟩

theorem download_dataset_prints (config : Config) (o : Oracle)
    (dataset_id file_format : String) (st : TokenState) :
    Event.printMsg ("Downloading dataset " ++ dataset_id) ∈
      (download_dataset config o dataset_id file_format false st).2.2 := by
  simp only [download_dataset, rest_get]
  split
  · next resp st1 ev1 heq => simp
  · next n st1 ev1 heq => simp
  · next m st1 ev1 heq => simp

theorem dsr_loop_attempts (config : Config) (fmt : String) (oracles : Nat → Oracle)
    (items : List SearchItem) :
    ∀ (i : Nat) (st : TokenState), st.access_token.isSome = true →
      (download_search_results_loop config fmt oracles items i st).1 = .ok ()
      ∧ ∀ item ∈ items, Event.printMsg ("Downloading dataset " ++ item.datasetId) ∈
          (download_search_results_loop config fmt oracles items i st).2.2 := by
  induction items with
  | nil => intro i st h; simp [download_search_results_loop]
  | cons item rest ih =>
    intro i st h
    have hd := download_dataset_pres config (oracles i) item.datasetId fmt false st h
    have hdp := download_dataset_prints config (oracles i) item.datasetId fmt st
    simp only [download_search_results_loop]
    split
    · next x st1 ev1 heq =>
        rw [heq] at hd hdp
        have hrest := ih (i + 1) st1 hd.1
        refine ⟨hrest.1, ?_⟩
        intro it hit
        rcases List.mem_cons.mp hit with hin | hin
        · subst hin; exact List.mem_append_left _ hdp
        · exact List.mem_append_right _ (hrest.2 it hin)
    · next m st1 ev1 heq =>
        rw [heq] at hd hdp
        have hrest := ih (i + 1) st1 hd.1
        refine ⟨hrest.1, ?_⟩
        intro it hit
        rcases List.mem_cons.mp hit with hin | hin
        · subst hin
          exact List.mem_append_left _ (List.mem_append_left _ hdp)
        · exact List.mem_append_right _ (hrest.2 it hin)
    · next n st1 ev1 heq =>
        rw [heq] at hd
        simp [Outcome.isExit] at hd

/-- C6: per-item failure isolation in search-result downloads.  For a non-200
search response nothing happens at all; for a 200 response (token held, so no
process exit can intervene) the loop finishes with `ok` — every per-item
failure is caught and logged inside it — and a download is attempted (the
item's `Downloading dataset` line is emitted) for every entry of `content`. -/
theorem C6_per_item_isolation (config : Config) (fmt : String) (oracles : Nat → Oracle)
    (resp : Response) (jsonContent : List SearchItem) (st : TokenState) :
    (resp.status_code ≠ 200 →
      download_search_results config fmt oracles resp jsonContent st = (.ok (), st, []))
    ∧ (resp.status_code = 200 → st.access_token.isSome = true →
        (download_search_results config fmt oracles resp jsonContent st).1 = .ok ()
        ∧ ∀ item ∈ jsonContent,
            Event.printMsg ("Downloading dataset " ++ item.datasetId) ∈
              (download_search_results config fmt oracles resp jsonContent st).2.2) := by
  constructor
  · intro hne; simp [download_search_results, hne]
  · intro h200 hs
    have hl := dsr_loop_attempts config fmt oracles jsonContent 0 st hs
    simpa [download_search_results, h200] using hl

def resp404 : Response :=
  { status_code := 404, reason := "Not Found", headers := [], content := [] }

def orc404 : Oracle :=
  { promptOk := true, passwordGrant := grantW, refreshGrant := refreshW,
    net := fun _ => resp404 }

def itemsW : List SearchItem := [⟨"7"⟩, ⟨"8"⟩]

def itemOraclesW : Nat → Oracle := fun i => if i = 0 then orc404 else orcOK

def searchRespW : Response :=
  { status_code := 200, reason := "OK", headers := [], content := [] }

/-- Witness for C6: item 7 fails with an HTTPError (404) yet item 8 is still
attempted, the loop result is `ok`, and a 404 search response downloads
nothing. -/
theorem C6_witness :
    (download_search_results cfgW "nifti" itemOraclesW searchRespW itemsW stTok).1 =
      .ok () ∧
    Event.printMsg ("Downloading dataset " ++ "7") ∈
      (download_search_results cfgW "nifti" itemOraclesW searchRespW itemsW stTok).2.2 ∧
    Event.printMsg ("Downloading dataset " ++ "8") ∈
      (download_search_results cfgW "nifti" itemOraclesW searchRespW itemsW stTok).2.2 ∧
    download_search_results cfgW "nifti" itemOraclesW resp404 itemsW stTok =
      (.ok (), stTok, []) := by
  have h := C6_per_item_isolation cfgW "nifti" itemOraclesW searchRespW itemsW stTok
  have h2 := (h.2 rfl rfl)
  refine ⟨h2.1, h2.2 ⟨"7"⟩ (by simp [itemsW]), h2.2 ⟨"8"⟩ (by simp [itemsW]), ?_⟩
  exact (C6_per_item_isolation cfgW "nifti" itemOraclesW resp404 itemsW stTok).1
    (by decide)

theorem refresh_access_token_result (config : Config) (tokResp : TokenResponse)
    (st : TokenState) :
    (refresh_access_token config tokResp st).1 =
      (if tokResp.status_code = 200 ∨ tokResp.status_code ∈ httpResponsesCodes then
        match tokResp.access_token with
        | some tok => .ok tok
        | none => .exc "KeyError: access_token"
      else .exc "KeyError: status reason") := by
  rcases h : tokResp.access_token with _ | tok <;>
    by_cases h200 : tokResp.status_code = 200 <;>
      by_cases hmem : tokResp.status_code ∈ httpResponsesCodes <;>
        simp [refresh_access_token, h, h200, hmem]

/-- C1 (amended): one logical `rest_request` call issues at most two HTTP
attempts and at most one refresh; a second attempt implies the first
answered 401; conversely, when the refresh grant carries a token *and* its
status is 200 or a code known to `http.client.responses` (so the refresh
error-logging line cannot raise `KeyError`), a 401 on an issued first
attempt forces exactly one reissue; and when two attempts happen the
caller gets the second attempt's response (through `raise_for_status`) —
nothing retries further. -/
theorem C1_at_most_two_attempts (config : Config) (o : Oracle) (rtype url : String)
    (params : List (String × String)) (rfs : Bool) (st : TokenState) :
    httpAttempts (rest_request config o rtype url params rfs st).2.2 ≤ 2
    ∧ refreshCount (rest_request config o rtype url params rfs st).2.2 ≤ 1
    ∧ (httpAttempts (rest_request config o rtype url params rfs st).2.2 = 2 →
        (o.net 0).status_code = 401)
    ∧ (o.refreshGrant.access_token.isSome = true →
        (o.refreshGrant.status_code = 200 ∨
          o.refreshGrant.status_code ∈ httpResponsesCodes) →
        1 ≤ httpAttempts (rest_request config o rtype url params rfs st).2.2 →
        (o.net 0).status_code = 401 →
        httpAttempts (rest_request config o rtype url params rfs st).2.2 = 2)
    ∧ (httpAttempts (rest_request config o rtype url params rfs st).2.2 = 2 →
        (rest_request config o rtype url params rfs st).1 =
          raiseForStatus rfs (o.net 1)) := by
  rcases hE : ensure_token config o st with ⟨r1, st1, ev1⟩
  have hec1 : httpAttempts ev1 = 0 := (by
    have := (ensure_token_counts config o st).1; rw [hE] at this; exact this)
  have hec2 : refreshCount ev1 = 0 := (by
    have := (ensure_token_counts config o st).2.1; rw [hE] at this; exact this)
  cases r1 with
  | exit n =>
    simp only [rest_request, hE]
    refine ⟨?_, ?_, ?_, ?_, ?_⟩ <;> simp [hec1, hec2]
  | exc m =>
    simp only [rest_request, hE]
    refine ⟨?_, ?_, ?_, ?_, ?_⟩ <;> simp [hec1, hec2]
  | ok tok =>
    simp only [rest_request, hE]
    by_cases hg : rtype = "get"
    · subst hg
      by_cases h401 : (o.net 0).status_code = 401
      · rcases hR : refresh_access_token config o.refreshGrant st1 with ⟨rr, st2, ev3⟩
        have hrc1 : httpAttempts ev3 = 0 := (by
          have := (refresh_token_counts config o.refreshGrant st1).1
          rw [hR] at this; exact this)
        have hrc3 : refreshCount ev3 = 1 := (by
          have := (refresh_token_counts config o.refreshGrant st1).2.2
          rw [hR] at this; exact this)
        have hres := refresh_access_token_result config o.refreshGrant st1
        rw [hR] at hres
        cases rr with
        | ok b =>
          refine ⟨?_, ?_, ?_, ?_, ?_⟩ <;>
            simp [perform_rest_request, hec1, hec2, hrc1, hrc3, h401,
              Event.isHttpAttempt, Event.isRefreshGrant]
        | exit n =>
          refine ⟨?_, ?_, ?_, ?_, ?_⟩
          · simp [perform_rest_request, hec1, hrc1, h401, Event.isHttpAttempt]
          · simp [perform_rest_request, hec2, hrc3, h401, Event.isRefreshGrant,
              Event.isHttpAttempt]
          · simp [h401]
          · intro hIs hStat h1 h4
            rcases Option.isSome_iff_exists.mp hIs with ⟨b, hb⟩
            rw [hb, if_pos hStat] at hres
            simp at hres
          · simp [perform_rest_request, hec1, hrc1, h401, Event.isHttpAttempt]
        | exc m =>
          refine ⟨?_, ?_, ?_, ?_, ?_⟩
          · simp [perform_rest_request, hec1, hrc1, h401, Event.isHttpAttempt]
          · simp [perform_rest_request, hec2, hrc3, h401, Event.isRefreshGrant,
              Event.isHttpAttempt]
          · simp [h401]
          · intro hIs hStat h1 h4
            rcases Option.isSome_iff_exists.mp hIs with ⟨b, hb⟩
            rw [hb, if_pos hStat] at hres
            simp at hres
          · simp [perform_rest_request, hec1, hrc1, h401, Event.isHttpAttempt]
      · refine ⟨?_, ?_, ?_, ?_, ?_⟩ <;>
          simp [perform_rest_request, hec1, hec2, h401, Event.isHttpAttempt,
            Event.isRefreshGrant]
    · by_cases hp : rtype = "post"
      · subst hp
        by_cases h401 : (o.net 0).status_code = 401
        · rcases hR : refresh_access_token config o.refreshGrant st1 with ⟨rr, st2, ev3⟩
          have hrc1 : httpAttempts ev3 = 0 := (by
            have := (refresh_token_counts config o.refreshGrant st1).1
            rw [hR] at this; exact this)
          have hrc3 : refreshCount ev3 = 1 := (by
            have := (refresh_token_counts config o.refreshGrant st1).2.2
            rw [hR] at this; exact this)
          have hres := refresh_access_token_result config o.refreshGrant st1
          rw [hR] at hres
          cases rr with
          | ok b =>
            refine ⟨?_, ?_, ?_, ?_, ?_⟩ <;>
              simp [perform_rest_request, hec1, hec2, hrc1, hrc3, h401,
                Event.isHttpAttempt, Event.isRefreshGrant]
          | exit n =>
            refine ⟨?_, ?_, ?_, ?_, ?_⟩
            · simp [perform_rest_request, hec1, hrc1, h401, Event.isHttpAttempt]
            · simp [perform_rest_request, hec2, hrc3, h401, Event.isRefreshGrant,
                Event.isHttpAttempt]
            · simp [h401]
            · intro hIs hStat h1 h4
              rcases Option.isSome_iff_exists.mp hIs with ⟨b, hb⟩
              rw [hb, if_pos hStat] at hres
              simp at hres
            · simp [perform_rest_request, hec1, hrc1, h401, Event.isHttpAttempt]
          | exc m =>
            refine ⟨?_, ?_, ?_, ?_, ?_⟩
            · simp [perform_rest_request, hec1, hrc1, h401, Event.isHttpAttempt]
            · simp [perform_rest_request, hec2, hrc3, h401, Event.isRefreshGrant,
                Event.isHttpAttempt]
            · simp [h401]
            · intro hIs hStat h1 h4
              rcases Option.isSome_iff_exists.mp hIs with ⟨b, hb⟩
              rw [hb, if_pos hStat] at hres
              simp at hres
            · simp [perform_rest_request, hec1, hrc1, h401, Event.isHttpAttempt]
        · refine ⟨?_, ?_, ?_, ?_, ?_⟩ <;>
            simp [perform_rest_request, hec1, hec2, h401, Event.isHttpAttempt,
              Event.isRefreshGrant]
      · refine ⟨?_, ?_, ?_, ?_, ?_⟩ <;>
          simp [perform_rest_request, hg, hp, hec1, hec2, Event.isHttpAttempt,
            Event.isRefreshGrant]

def orc520 : Oracle :=
  { promptOk := true, passwordGrant := grantW, refreshGrant := refresh520,
    net := fun i => if i = 0 then resp401W else respOKW }

/-- Counterexample to C1 as stated: the first response is 401 and the
refresh body carries a token, but the refresh status 520 is absent from
`http.client.responses`, so the log line's `KeyError` aborts before the
reissue — only one HTTP attempt happens despite the 401. -/
theorem C1_counterexample :
    (orc520.net 0).status_code = 401 ∧
    orc520.refreshGrant.access_token.isSome = true ∧
    httpAttempts (rest_request cfgW orc520 "get" urlW [] true stTok).2.2 = 1 ∧
    (rest_request cfgW orc520 "get" urlW [] true stTok).1 =
      .exc "KeyError: status reason" := by
  decide

/-- Witness for C1: in the C3 round-trip oracle (refresh status 200) the
call makes exactly two attempts, the first response was a 401, and the
caller sees the second attempt's response. -/
theorem C1_witness :
    httpAttempts (rest_request cfgW orcW "get" urlW [] true stTok).2.2 = 2 ∧
    (orcW.net 0).status_code = 401 ∧
    (rest_request cfgW orcW "get" urlW [] true stTok).1 =
      raiseForStatus true (orcW.net 1) := by
  have h := C1_at_most_two_attempts cfgW orcW "get" urlW [] true stTok
  exact ⟨h.2.2.2.1 (by decide) (by decide) (by decide) (by decide), by decide,
    h.2.2.2.2 (h.2.2.2.1 (by decide) (by decide) (by decide) (by decide))⟩

theorem no_http_mem {l : List Event} (h : httpAttempts l = 0) {e : Event} (he : e ∈ l) :
    e.isHttpAttempt = false := by
  have := List.countP_eq_zero.mp h e he
  simpa using this

theorem perform_http_shape (rtype url : String) (headers params : List (String × String))
    (netResp : Response) :
    ∀ e ∈ (perform_rest_request rtype url headers params netResp).2,
      e.isHttpAttempt = true → e = Event.httpRequest rtype url headers params := by
  intro e he hh
  by_cases hg : rtype = "get"
  · subst hg; simp [perform_rest_request] at he; subst he; rfl
  · by_cases hp : rtype = "post"
    · subst hp; simp [perform_rest_request, hg] at he; subst he; rfl
    · simp [perform_rest_request, hg, hp] at he
      subst he; simp [Event.isHttpAttempt] at hh

theorem ensure_token_ok_state (config : Config) (o : Oracle) (st : TokenState)
    (tok : String) (st1 : TokenState) (ev1 : List Event)
    (h : ensure_token config o st = (.ok tok, st1, ev1)) :
    st1.access_token = some tok := by
  rcases hA : st.access_token with _ | t
  · simp only [ensure_token, hA] at h
    rcases hAsk : ask_access_token config o.promptOk o.passwordGrant st with ⟨r, sta, eva⟩
    rw [hAsk] at h
    cases r with
    | ok t2 =>
      simp only [Prod.mk.injEq, Outcome.ok.injEq] at h
      obtain ⟨h1, h2, h3⟩ := h
      subst h1
      rw [← h2]
    | exit n => simp at h
    | exc m => simp at h
  · simp only [ensure_token, hA] at h
    simp only [Prod.mk.injEq, Outcome.ok.injEq] at h
    obtain ⟨h1, h2, h3⟩ := h
    subst h1
    rw [← h2, hA]

theorem ask_access_token_grant_mem (config : Config) (promptOk : Bool)
    (tokResp : TokenResponse) (st : TokenState) (tok : String) (sta : TokenState)
    (eva : List Event)
    (h : ask_access_token config promptOk tokResp st = (.ok tok, sta, eva)) :
    Event.tokenPasswordGrant (token_url config) ∈ eva := by
  by_cases hP : promptOk
  · by_cases h200 : tokResp.status_code = 200
    · by_cases herr : tokResp.error_description = some "Invalid user credentials"
      · simp [ask_access_token, hP, h200, herr] at h
      · rcases hrt : tokResp.refresh_token with _ | rt
        · simp [ask_access_token, hP, h200, herr, hrt] at h
        · rcases hat : tokResp.access_token with _ | atk
          · simp [ask_access_token, hP, h200, herr, hrt, hat] at h
          · simp [ask_access_token, hP, h200, herr, hrt, hat] at h
            obtain ⟨-, -, h3⟩ := h
            rw [← h3]
            simp
    · simp [ask_access_token, hP, h200] at h
  · simp [ask_access_token, hP] at h

theorem ensure_token_ok_none_grant (config : Config) (o : Oracle) (st : TokenState)
    (tok : String) (st1 : TokenState) (ev1 : List Event)
    (hA : st.access_token = none)
    (h : ensure_token config o st = (.ok tok, st1, ev1)) :
    Event.tokenPasswordGrant (token_url config) ∈ ev1 := by
  simp only [ensure_token, hA] at h
  rcases hAsk : ask_access_token config o.promptOk o.passwordGrant st with ⟨r, sta, eva⟩
  rw [hAsk] at h
  cases r with
  | ok t =>
    have hm := ask_access_token_grant_mem config o.promptOk o.passwordGrant st t sta eva hAsk
    simp only [Prod.mk.injEq] at h
    obtain ⟨-, -, h3⟩ := h
    exact h3 ▸ hm
  | exit n => simp at h
  | exc m => simp at h

theorem ensure_token_none_not_exc (config : Config) (o : Oracle) (st : TokenState)
    (hA : st.access_token = none) (hg : grantParses o.passwordGrant) :
    (ensure_token config o st).1.isExc = false := by
  simp only [ensure_token, hA]
  by_cases hP : o.promptOk
  · simp only [ask_access_token, hP]
    by_cases h200 : o.passwordGrant.status_code = 200
    · by_cases herr : o.passwordGrant.error_description = some "Invalid user credentials"
      · simp [h200, herr, Outcome.isExc]
      · obtain ⟨hrt, hat⟩ := hg h200 herr
        rcases Option.isSome_iff_exists.mp hrt with ⟨rt, hrt2⟩
        rcases Option.isSome_iff_exists.mp hat with ⟨atk, hat2⟩
        simp [h200, herr, hrt2, hat2, Outcome.isExc]
    · simp [h200, Outcome.isExc]
  · simp [ask_access_token, hP, Outcome.isExc]

theorem rest_request_someTok_grants (config : Config) (o : Oracle) (rtype url : String)
    (params : List (String × String)) (rfs : Bool) (st : TokenState) (tok : String)
    (hA : st.access_token = some tok) :
    grantCount (rest_request config o rtype url params rfs st).2.2 = 0 := by
  simp only [rest_request, ensure_token, hA]
  split
  · next ev2 heq =>
      have hc : grantCount ev2 = 0 := by
        have := (perform_counts rtype url
          [("Authorization", "Bearer " ++ tok), ("content-type", "application/json")]
          params (o.net 0)).2.1
        rw [heq] at this; exact this
      simpa using hc
  · next resp ev2 heq =>
      have hc : grantCount ev2 = 0 := by
        have := (perform_counts rtype url
          [("Authorization", "Bearer " ++ tok), ("content-type", "application/json")]
          params (o.net 0)).2.1
        rw [heq] at this; exact this
      split
      · split
        · next n st2 ev3 heqR =>
            have hr : grantCount ev3 = 0 := by
              have := (refresh_token_counts config o.refreshGrant st).2.1
              rw [heqR] at this; exact this
            simp [hc, hr]
        · next m st2 ev3 heqR =>
            have hr : grantCount ev3 = 0 := by
              have := (refresh_token_counts config o.refreshGrant st).2.1
              rw [heqR] at this; exact this
            simp [hc, hr]
        · next tok2 st2 ev3 heqR =>
            have hr : grantCount ev3 = 0 := by
              have := (refresh_token_counts config o.refreshGrant st).2.1
              rw [heqR] at this; exact this
            split
            · next ev4 heqP =>
                have hc2 : grantCount ev4 = 0 := by
                  have := (perform_counts rtype url
                    [("Authorization", "Bearer " ++ tok2), ("content-type", "application/json")]
                    params (o.net 1)).2.1
                  rw [heqP] at this; exact this
                simp [hc, hr, hc2]
            · next resp2 ev4 heqP =>
                have hc2 : grantCount ev4 = 0 := by
                  have := (perform_counts rtype url
                    [("Authorization", "Bearer " ++ tok2), ("content-type", "application/json")]
                    params (o.net 1)).2.1
                  rw [heqP] at this; exact this
                simp [hc, hr, hc2]
      · simp [hc]

theorem rest_request_noneTok (config : Config) (o : Oracle) (rtype url : String)
    (params : List (String × String)) (rfs : Bool) (st : TokenState)
    (hA : st.access_token = none) (hg : grantParses o.passwordGrant) :
    grantCount (rest_request config o rtype url params rfs st).2.2 ≤ 1 ∧
    ((rest_request config o rtype url params rfs st).1.isExit = true ∨
      (rest_request config o rtype url params rfs st).2.1.access_token.isSome = true) := by
  rcases hE : ensure_token config o st with ⟨r1, st1, ev1⟩
  have hgc : grantCount ev1 ≤ 1 := by
    have := (ensure_token_counts config o st).2.2; rw [hE] at this; exact this
  cases r1 with
  | exit n =>
    simp only [rest_request, hE]
    exact ⟨hgc, Or.inl rfl⟩
  | exc m =>
    have hne := ensure_token_none_not_exc config o st hA hg
    rw [hE] at hne
    simp [Outcome.isExc] at hne
  | ok tok =>
    have hst1 : st1.access_token = some tok := ensure_token_ok_state config o st tok st1 ev1 hE
    simp only [rest_request, hE]
    split
    · next ev2 heq =>
        have hc : grantCount ev2 = 0 := by
          have := (perform_counts rtype url
            [("Authorization", "Bearer " ++ tok), ("content-type", "application/json")]
            params (o.net 0)).2.1
          rw [heq] at this; exact this
        exact ⟨by simpa [hc] using hgc, Or.inr (by simp [hst1])⟩
    · next resp ev2 heq =>
        have hc : grantCount ev2 = 0 := by
          have := (perform_counts rtype url
            [("Authorization", "Bearer " ++ tok), ("content-type", "application/json")]
            params (o.net 0)).2.1
          rw [heq] at this; exact this
        split
        · split
          · next n st2 ev3 heqR =>
              have hne := refresh_access_token_no_exit config o.refreshGrant st1
              rw [heqR] at hne
              simp [Outcome.isExit] at hne
          · next m st2 ev3 heqR =>
              have hr : grantCount ev3 = 0 := by
                have := (refresh_token_counts config o.refreshGrant st1).2.1
                rw [heqR] at this; exact this
              have hst2 : st2 = st1 := by
                have := refresh_access_token_state config o.refreshGrant st1
                rw [heqR] at this; exact this
              refine ⟨by simpa [hc, hr] using hgc, Or.inr ?_⟩
              rw [hst2]
              simp [hst1]
          · next tok2 st2 ev3 heqR =>
              have hr : grantCount ev3 = 0 := by
                have := (refresh_token_counts config o.refreshGrant st1).2.1
                rw [heqR] at this; exact this
              split
              · next ev4 heqP =>
                  have hc2 : grantCount ev4 = 0 := by
                    have := (perform_counts rtype url
                      [("Authorization", "Bearer " ++ tok2), ("content-type", "application/json")]
                      params (o.net 1)).2.1
                    rw [heqP] at this; exact this
                  exact ⟨by simpa [hc, hr, hc2] using hgc, Or.inr (by simp)⟩
              · next resp2 ev4 heqP =>
                  have hc2 : grantCount ev4 = 0 := by
                    have := (perform_counts rtype url
                      [("Authorization", "Bearer " ++ tok2), ("content-type", "application/json")]
                      params (o.net 1)).2.1
                    rw [heqP] at this; exact this
                  exact ⟨by simpa [hc, hr, hc2] using hgc, Or.inr (by simp)⟩
        · exact ⟨by simpa [hc] using hgc, Or.inr (by simp [hst1])⟩

theorem run_requests_some (config : Config) (calls : List Call) :
    ∀ st : TokenState, st.access_token.isSome = true →
      grantCount (run_requests config calls st).2 = 0 := by
  induction calls with
  | nil => intro st _; simp [run_requests]
  | cons c rest ih =>
    intro st h
    have h0 := rest_request_someTok_grants config c.o c.rtype c.url c.params c.rfs st
      (Option.get st.access_token h) (by simp)
    have hpres := rest_request_someTok_no_exit config c.o c.rtype c.url c.params c.rfs st h
    simp only [run_requests]
    rw [hpres.2]
    simp [h0, ih _ hpres.1]

theorem run_requests_grant_le_one (config : Config) (calls : List Call) :
    ∀ st : TokenState, (∀ c ∈ calls, grantParses c.o.passwordGrant) →
      grantCount (run_requests config calls st).2 ≤ 1 := by
  induction calls with
  | nil => intro st _; simp [run_requests]
  | cons c rest ih =>
    intro st hpar
    rcases hS : st.access_token with _ | tok
    · have hn := rest_request_noneTok config c.o c.rtype c.url c.params c.rfs st hS
        (hpar c (by simp))
      by_cases hex : (rest_request config c.o c.rtype c.url c.params c.rfs st).1.isExit = true
      · simp only [run_requests]
        rw [hex]
        simpa using hn.1
      · have hsome : (rest_request config c.o c.rtype c.url c.params
            c.rfs st).2.1.access_token.isSome = true := by
          rcases hn.2 with h | h
          · exact absurd h hex
          · exact h
        simp only [run_requests]
        rw [if_neg hex]
        have h0 := run_requests_some config rest _ hsome
        simpa [h0] using hn.1
    · have h0 := run_requests_some config (c :: rest) st (by simp [hS])
      simp [h0]

theorem rest_request_http_shape (config : Config) (o : Oracle) (rtype url : String)
    (params : List (String × String)) (rfs : Bool) (st : TokenState) :
    ∀ e ∈ (rest_request config o rtype url params rfs st).2.2, e.isHttpAttempt = true →
      ∃ t, e = Event.httpRequest rtype url
        [("Authorization", "Bearer " ++ t), ("content-type", "application/json")]
        params := by
  rcases hE : ensure_token config o st with ⟨r1, st1, ev1⟩
  have hec1 : httpAttempts ev1 = 0 := by
    have := (ensure_token_counts config o st).1; rw [hE] at this; exact this
  cases r1 with
  | exit n =>
    simp only [rest_request, hE]
    intro e he hh
    exact absurd (no_http_mem hec1 he) (by simp [hh])
  | exc m =>
    simp only [rest_request, hE]
    intro e he hh
    exact absurd (no_http_mem hec1 he) (by simp [hh])
  | ok tok =>
    simp only [rest_request, hE]
    split
    · next ev2 heq =>
        intro e he hh
        rcases List.mem_append.mp he with h | h
        · exact absurd (no_http_mem hec1 h) (by simp [hh])
        · have hs := perform_http_shape rtype url
            [("Authorization", "Bearer " ++ tok), ("content-type", "application/json")]
            params (o.net 0)
          rw [heq] at hs
          exact ⟨tok, hs e h hh⟩
    · next resp ev2 heq =>
        have hs := perform_http_shape rtype url
          [("Authorization", "Bearer " ++ tok), ("content-type", "application/json")]
          params (o.net 0)
        rw [heq] at hs
        split
        · split
          · next n st2 ev3 heqR =>
              have hr : httpAttempts ev3 = 0 := by
                have := (refresh_token_counts config o.refreshGrant st1).1
                rw [heqR] at this; exact this
              intro e he hh
              rcases List.mem_append.mp he with h | h
              · rcases List.mem_append.mp h with h2 | h2
                · exact absurd (no_http_mem hec1 h2) (by simp [hh])
                · exact ⟨tok, hs e h2 hh⟩
              · exact absurd (no_http_mem hr h) (by simp [hh])
          · next m st2 ev3 heqR =>
              have hr : httpAttempts ev3 = 0 := by
                have := (refresh_token_counts config o.refreshGrant st1).1
                rw [heqR] at this; exact this
              intro e he hh
              rcases List.mem_append.mp he with h | h
              · rcases List.mem_append.mp h with h2 | h2
                · exact absurd (no_http_mem hec1 h2) (by simp [hh])
                · exact ⟨tok, hs e h2 hh⟩
              · exact absurd (no_http_mem hr h) (by simp [hh])
          · next tok2 st2 ev3 heqR =>
              have hr : httpAttempts ev3 = 0 := by
                have := (refresh_token_counts config o.refreshGrant st1).1
                rw [heqR] at this; exact this
              split
              · next ev4 heqP =>
                  have hs2 := perform_http_shape rtype url
                    [("Authorization", "Bearer " ++ tok2), ("content-type", "application/json")]
                    params (o.net 1)
                  rw [heqP] at hs2
                  intro e he hh
                  rcases List.mem_append.mp he with h | h
                  · rcases List.mem_append.mp h with h2 | h2
                    · rcases List.mem_append.mp h2 with h3 | h3
                      · exact absurd (no_http_mem hec1 h3) (by simp [hh])
                      · exact ⟨tok, hs e h3 hh⟩
                    · exact absurd (no_http_mem hr h2) (by simp [hh])
                  · exact ⟨tok2, hs2 e h hh⟩
              · next resp2 ev4 heqP =>
                  have hs2 := perform_http_shape rtype url
                    [("Authorization", "Bearer " ++ tok2), ("content-type", "application/json")]
                    params (o.net 1)
                  rw [heqP] at hs2
                  intro e he hh
                  rcases List.mem_append.mp he with h | h
                  · rcases List.mem_append.mp h with h2 | h2
                    · rcases List.mem_append.mp h2 with h3 | h3
                      · exact absurd (no_http_mem hec1 h3) (by simp [hh])
                      · exact ⟨tok, hs e h3 hh⟩
                    · exact absurd (no_http_mem hr h2) (by simp [hh])
                  · exact ⟨tok2, hs2 e h hh⟩
        · intro e he hh
          rcases List.mem_append.mp he with h | h
          · exact absurd (no_http_mem hec1 h) (by simp [hh])
          · exact ⟨tok, hs e h hh⟩

theorem rest_request_grant_first (config : Config) (o : Oracle) (rtype url : String)
    (params : List (String × String)) (rfs : Bool) (st : TokenState)
    (hA : st.access_token = none) :
    httpAttempts (rest_request config o rtype url params rfs st).2.2 = 0
    ∨ ∃ pre post, (rest_request config o rtype url params rfs st).2.2 = pre ++ post
        ∧ httpAttempts pre = 0
        ∧ Event.tokenPasswordGrant (token_url config) ∈ pre := by
  rcases hE : ensure_token config o st with ⟨r1, st1, ev1⟩
  have hec1 : httpAttempts ev1 = 0 := by
    have := (ensure_token_counts config o st).1; rw [hE] at this; exact this
  cases r1 with
  | exit n =>
    left; simp only [rest_request, hE]; exact hec1
  | exc m =>
    left; simp only [rest_request, hE]; exact hec1
  | ok tok =>
    have hgm := ensure_token_ok_none_grant config o st tok st1 ev1 hA hE
    right
    simp only [rest_request, hE]
    split
    · next ev2 heq => exact ⟨ev1, ev2, rfl, hec1, hgm⟩
    · next resp ev2 heq =>
        split
        · split
          · next n st2 ev3 heqR =>
              exact ⟨ev1, ev2 ++ ev3, by rw [List.append_assoc], hec1, hgm⟩
          · next m st2 ev3 heqR =>
              exact ⟨ev1, ev2 ++ ev3, by rw [List.append_assoc], hec1, hgm⟩
          · next tok2 st2 ev3 heqR =>
              split
              · next ev4 heqP =>
                  exact ⟨ev1, ev2 ++ ev3 ++ ev4, by simp [List.append_assoc], hec1, hgm⟩
              · next resp2 ev4 heqP =>
                  exact ⟨ev1, ev2 ++ ev3 ++ ev4, by simp [List.append_assoc], hec1, hgm⟩
        · exact ⟨ev1, ev2, rfl, hec1, hgm⟩

/-- C4: no authenticated request before a token exists.  Every HTTP attempt
a `rest_request` call issues carries an `Authorization: Bearer <token>`
header built from the token held at that point; when the call starts with
no stored token, either no HTTP attempt happens at all or all HTTP attempts
come strictly after the password-grant call; and across any sequence of
calls whose password-grant responses are well-formed, at most one password
grant is ever issued. -/
theorem C4_token_minted_before_requests (config : Config) (o : Oracle)
    (rtype url : String) (params : List (String × String)) (rfs : Bool)
    (st : TokenState) :
    (∀ e ∈ (rest_request config o rtype url params rfs st).2.2,
       e.isHttpAttempt = true →
       ∃ t, e = Event.httpRequest rtype url
         [("Authorization", "Bearer " ++ t), ("content-type", "application/json")]
         params)
    ∧ (st.access_token = none →
        httpAttempts (rest_request config o rtype url params rfs st).2.2 = 0
        ∨ ∃ pre post,
            (rest_request config o rtype url params rfs st).2.2 = pre ++ post
            ∧ httpAttempts pre = 0
            ∧ Event.tokenPasswordGrant (token_url config) ∈ pre)
    ∧ (∀ (calls : List Call) (st0 : TokenState),
        (∀ c ∈ calls, grantParses c.o.passwordGrant) →
        grantCount (run_requests config calls st0).2 ≤ 1) :=
  ⟨rest_request_http_shape config o rtype url params rfs st,
   fun hA => rest_request_grant_first config o rtype url params rfs st hA,
   fun calls st0 hp => run_requests_grant_le_one config calls st0 hp⟩

def callW : Call := { o := orcW, rtype := "get", url := urlW, params := [], rfs := true }

def callW2 : Call := { o := orcOK, rtype := "get", url := urlW, params := [], rfs := true }

/-- Witness for C4: in the C3 scenario the issued attempt carries a bearer
header; starting tokenless the grant precedes all attempts; and the
two-call sequence issues exactly at most one password grant. -/
theorem C4_witness :
    (∃ t, Event.httpRequest "get" urlW
        [("Authorization", "Bearer A"), ("content-type", "application/json")] [] =
      Event.httpRequest "get" urlW
        [("Authorization", "Bearer " ++ t), ("content-type", "application/json")] []) ∧
    (httpAttempts (rest_request cfgW orcW "get" urlW [] true stNone).2.2 = 0
     ∨ ∃ pre post,
         (rest_request cfgW orcW "get" urlW [] true stNone).2.2 = pre ++ post
         ∧ httpAttempts pre = 0
         ∧ Event.tokenPasswordGrant (token_url cfgW) ∈ pre) ∧
    grantCount (run_requests cfgW [callW, callW2] stNone).2 ≤ 1 := by
  have h := C4_token_minted_before_requests cfgW orcW "get" urlW [] true stNone
  refine ⟨?_, h.2.1 rfl, ?_⟩
  · exact h.1 (Event.httpRequest "get" urlW
      [("Authorization", "Bearer A"), ("content-type", "application/json")] [])
      (by decide) (by decide)
  · refine h.2.2 [callW, callW2] stNone ?_
    intro c hc
    have : c = callW ∨ c = callW2 := by simpa using hc
    rcases this with rfl | rfl
    · intro h200 herr; exact ⟨rfl, rfl⟩
    · intro h200 herr; exact ⟨rfl, rfl⟩
